import Mathlib

/-!
Verification of `lib/browser/api/browser-window.js`: a shallow embedding of
the BrowserWindow JavaScript layer (bounds patching, the visibility tracker,
the one-shot load-url focus hook, registry queries, the webContents
delegation facade, and the property definitions), with theorems checking the
specification's claims against it.
-/

namespace BrowserWindow

/-- JavaScript values, as far as the embedded code needs them. -/
inductive JSVal where
  | undef
  | bool (b : Bool)
  | num (n : Int)
  | str (s : String)
  deriving DecidableEq, Repr

/-! ### Bounds patching (`setBounds` override) -/

/-- A complete bounds rectangle, as returned by `getBounds()`. -/
structure Bounds where
  x : Int
  y : Int
  width : Int
  height : Int
  deriving DecidableEq, Repr

/-- A partial bounds patch: each field independently present or absent,
as in the plain object passed to the overridden `setBounds`. -/
structure BoundsPatch where
  x? : Option Int
  y? : Option Int
  width? : Option Int
  height? : Option Int
  deriving DecidableEq, Repr

/-- The empty patch `{}`. -/
def BoundsPatch.empty : BoundsPatch := ⟨none, none, none, none⟩

/-- The object-spread merge `{ ...this.getBounds(), ...bounds }` from the
`setBounds` override: fields present in the patch win, absent fields come
from the current bounds. -/
def mergeBounds (b : Bounds) (p : BoundsPatch) : Bounds :=
  { x := p.x?.getD b.x
    y := p.y?.getD b.y
    width := p.width?.getD b.width
    height := p.height?.getD b.height }

/-- The overridden `setBounds(bounds, ...opts)`: it forwards the merged
complete bounds and the untouched options to `nativeSetBounds`. The result
pair is exactly what reaches the native call. -/
def setBounds (current : Bounds) (patch : BoundsPatch) (opts : List JSVal) :
    Bounds × List JSVal :=
  (mergeBounds current patch, opts)

/-! ### Visibility tracker (`visibilityChanged`) -/

/-- The five lifecycle events the tracker subscribes to. -/
inductive WinEvent where
  | show
  | hide
  | minimize
  | maximize
  | restore
  deriving DecidableEq, Repr

/-- Native window state read by `isVisible()` / `isMinimized()`. -/
structure NativeWinState where
  isVisible : Bool
  isMinimized : Bool
  deriving DecidableEq, Repr

/-- Native effect of each lifecycle event on the window state. -/
def applyNative (s : NativeWinState) : WinEvent → NativeWinState
  | .show => { s with isVisible := true }
  | .hide => { s with isVisible := false }
  | .minimize => { s with isMinimized := true }
  | .maximize => s
  | .restore => { s with isMinimized := false }

/-- The derived value `this.isVisible() && !this.isMinimized()`. -/
def derivedVisible (s : NativeWinState) : Bool :=
  s.isVisible && !s.isMinimized

/-- Tracker state: the native window state together with the `isVisible`
closure variable caching the last derived value. -/
structure VisTracker where
  native : NativeWinState
  lastState : Bool
  deriving DecidableEq, Repr

/-- Binding-time initialization:
`let isVisible = this.isVisible() && !this.isMinimized()`. -/
def initTracker (s : NativeWinState) : VisTracker :=
  ⟨s, derivedVisible s⟩

/-- The `visibilityChanged` handler: recompute the derived value, and when it
differs from the cache, update the cache and emit one
`-window-visibility-change` notification with the matching polarity string. -/
def visibilityChanged (t : VisTracker) : VisTracker × List String :=
  let newState := derivedVisible t.native
  if t.lastState ≠ newState then
    ({ t with lastState := newState },
     [if newState then "visible" else "hidden"])
  else
    (t, [])

/-- Processing one lifecycle event: the native state changes, then the
subscribed `visibilityChanged` handler runs. -/
def stepEvent (t : VisTracker) (e : WinEvent) : VisTracker × List String :=
  visibilityChanged { t with native := applyNative t.native e }

/-- Processing a whole event sequence, accumulating the notifications. -/
def runEvents (t : VisTracker) : List WinEvent → VisTracker × List String
  | [] => (t, [])
  | e :: es =>
    let r := stepEvent t e
    let r' := runEvents r.1 es
    (r'.1, r.2 ++ r'.2)

/-- Whether every event of the sequence leaves the derived value unchanged
step by step (not merely net-to-net). -/
def preservesDerived (s : NativeWinState) : List WinEvent → Bool
  | [] => true
  | e :: es =>
    let s' := applyNative s e
    (derivedVisible s' == derivedVisible s) && preservesDerived s' es

/-! ### Registry queries -/

/-- A window as seen by the static registry queries. -/
structure WindowRec where
  id : Nat
  isBrowserWindow : Bool
  focused : Bool
  devToolsFocused : Bool
  webContentsId : Option Nat
  deriving DecidableEq, Repr

/-- `BrowserWindow.getAllWindows()`: the top-level windows filtered down to
the BrowserWindow kind. -/
def getAllWindows (registry : List WindowRec) : List WindowRec :=
  registry.filter fun w => w.isBrowserWindow

/-- The scan predicate of `getFocusedWindow`:
`window.isFocused() || window.isDevToolsFocused()`. -/
def focusedPred (w : WindowRec) : Bool :=
  w.focused || w.devToolsFocused

/-- `BrowserWindow.getFocusedWindow()`: first window of the enumeration
satisfying `focusedPred`, else `null`. -/
def getFocusedWindow (registry : List WindowRec) : Option WindowRec :=
  (getAllWindows registry).find? focusedPred

/-- The scan predicate of `fromWebContents`:
`window.webContents && window.webContents.equal(webContents)`, where a
missing content surface makes the conjunction falsy. -/
def wcMatches (wc : Nat) (w : WindowRec) : Bool :=
  match w.webContentsId with
  | some i => i == wc
  | none => false

/-- `BrowserWindow.fromWebContents(webContents)`: first window of the
enumeration whose content surface equals the handle, else `null`. -/
def fromWebContents (registry : List WindowRec) (wc : Nat) : Option WindowRec :=
  (getAllWindows registry).find? (wcMatches wc)

/-- Scenario window with no content surface bound. -/
def exW0 : WindowRec := ⟨0, true, false, false, none⟩

/-- Scenario window W1: not focused. -/
def exW1 : WindowRec := ⟨1, true, false, false, some 11⟩

/-- Scenario window W2: focused. -/
def exW2 : WindowRec := ⟨2, true, true, false, some 12⟩

/-- Scenario window W3: devtools-focused. -/
def exW3 : WindowRec := ⟨3, true, false, true, some 13⟩

/-! ### One-shot `load-url` focus hook -/

/-- State of the `webContents.once('load-url', ...)` subscription together
with the number of `focus()` calls it has made on the content surface. -/
structure OnceState where
  handlerActive : Bool
  focusCalls : Nat
  deriving DecidableEq, Repr

/-- State right after `_init` installs the one-shot handler. -/
def initOnce : OnceState := ⟨true, 0⟩

/-- One `load-url` occurrence: a `once` subscription removes itself and then
runs the handler, which calls `focus()` on the content surface. -/
def fireLoadUrl (s : OnceState) : OnceState :=
  if s.handlerActive then ⟨false, s.focusCalls + 1⟩ else s

/-- `n` successive `load-url` occurrences. -/
def fireLoadUrlN (s : OnceState) : Nat → OnceState
  | 0 => s
  | n + 1 => fireLoadUrlN (fireLoadUrl s) n

/-! ### Delegation facade (`Object.assign(BrowserWindow.prototype, ...)`) -/

/-- The sixteen window-level operations forwarded to the content surface. -/
inductive DelegatedOp where
  | loadURL
  | getURL
  | loadFile
  | reload
  | send
  | openDevTools
  | closeDevTools
  | isDevToolsOpened
  | isDevToolsFocused
  | toggleDevTools
  | inspectElement
  | inspectSharedWorker
  | inspectServiceWorker
  | showDefinitionForSelection
  | capturePage
  | setBackgroundThrottling
  deriving DecidableEq, Repr

/-- Argument lists matching the declared signature of each facade method:
`(...args)` methods accept any list, `()` methods accept none, and
`setBackgroundThrottling(allowed)` takes exactly one argument. -/
def declaredArgsOk : DelegatedOp → List JSVal → Bool
  | .loadURL, _ => true
  | .getURL, _ => true
  | .loadFile, _ => true
  | .reload, _ => true
  | .send, _ => true
  | .openDevTools, _ => true
  | .inspectElement, _ => true
  | .capturePage, _ => true
  | .setBackgroundThrottling, args => args.length == 1
  | _, args => args.isEmpty

/-- Each facade method, transcribed from the source. Given the content
surface's method behaviors `wc`, the result pair is the argument list the
window-level call passes to the content surface's method, and the value the
window-level call returns (`undef` when the body has no return statement).
`getURL` calls `this.webContents.getURL()` with no arguments, and
`setBackgroundThrottling` performs the forwarded call but returns nothing. -/
def windowOp (wc : DelegatedOp → List JSVal → JSVal) :
    DelegatedOp → List JSVal → List JSVal × JSVal
  | .loadURL, args => (args, wc .loadURL args)
  | .getURL, _ => ([], wc .getURL [])
  | .loadFile, args => (args, wc .loadFile args)
  | .reload, args => (args, wc .reload args)
  | .send, args => (args, wc .send args)
  | .openDevTools, args => (args, wc .openDevTools args)
  | .closeDevTools, _ => ([], wc .closeDevTools [])
  | .isDevToolsOpened, _ => ([], wc .isDevToolsOpened [])
  | .isDevToolsFocused, _ => ([], wc .isDevToolsFocused [])
  | .toggleDevTools, _ => ([], wc .toggleDevTools [])
  | .inspectElement, args => (args, wc .inspectElement args)
  | .inspectSharedWorker, _ => ([], wc .inspectSharedWorker [])
  | .inspectServiceWorker, _ => ([], wc .inspectServiceWorker [])
  | .showDefinitionForSelection, _ => ([], wc .showDefinitionForSelection [])
  | .capturePage, args => (args, wc .capturePage args)
  | .setBackgroundThrottling, args => ([args.headD JSVal.undef], JSVal.undef)

/-! ### `documentEdited` property -/

/-- The native flags behind the `documentEdited` property definition. -/
structure EditState where
  fullscreen : Bool
  documentEditedFlag : Bool
  deriving DecidableEq, Repr

/-- The property getter as written in the source:
`get: function () { return this.isFullscreen(); }`. -/
def documentEditedGet (s : EditState) : Bool :=
  s.fullscreen

/-- The property setter as written in the source:
`set: function (edited) { this.setDocumentEdited(edited); }`. -/
def documentEditedSet (s : EditState) (v : Bool) : EditState :=
  { s with documentEditedFlag := v }

/-! ### `devToolsWebContents` property descriptor -/

/-- A content surface, as far as the descriptor getter reads it. -/
structure WebContentsRec where
  devToolsWebContents : Option Nat
  deriving DecidableEq, Repr

/-- A window as seen by the `devToolsWebContents` getter. -/
structure BWin where
  webContents : WebContentsRec
  deriving DecidableEq, Repr

/-- An `Object.defineProperty` descriptor over windows. -/
structure PropertyDescriptor (β : Type) where
  enumerable : Bool
  configurable : Bool
  get? : Option (BWin → β)
  set? : Option (BWin → β → BWin)

/-- The descriptor installed for `devToolsWebContents` in `_init`:
enumerable, non-configurable, getter reading
`this.webContents.devToolsWebContents`, and no setter. -/
def devToolsWebContentsProp : PropertyDescriptor (Option Nat) :=
  { enumerable := true
    configurable := false
    get? := some fun w => w.webContents.devToolsWebContents
    set? := none }

/-- JavaScript: assigning to a property succeeds only when a setter exists. -/
def PropertyDescriptor.canAssign (d : PropertyDescriptor β) : Bool :=
  d.set?.isSome

/-- JavaScript: a property can be redefined only when it is configurable. -/
def PropertyDescriptor.canRedefine (d : PropertyDescriptor β) : Bool :=
  d.configurable

end BrowserWindow

namespace BrowserWindow

/-! ### Helper lemmas -/

/-- After any run of the handler, the cache agrees with the derived value. -/
lemma visibilityChanged_sync (t : VisTracker) :
    (visibilityChanged t).1.lastState = derivedVisible (visibilityChanged t).1.native := by
  unfold visibilityChanged
  by_cases h : t.lastState = derivedVisible t.native
  · simp [h]
  · simp [h]

/-- After any processed event, the cache agrees with the derived value. -/
lemma stepEvent_sync (t : VisTracker) (e : WinEvent) :
    (stepEvent t e).1.lastState = derivedVisible (stepEvent t e).1.native :=
  visibilityChanged_sync _

/-- The native component of a run is the fold of the native event effects. -/
lemma runEvents_native (t : VisTracker) (es : List WinEvent) :
    (runEvents t es).1.native = es.foldl applyNative t.native := by
  induction es generalizing t with
  | nil => rfl
  | cons e es ih =>
    show (runEvents (stepEvent t e).1 es).1.native = _
    rw [ih]
    have hnat : (stepEvent t e).1.native = applyNative t.native e := by
      unfold stepEvent visibilityChanged
      by_cases h : t.lastState = derivedVisible (applyNative t.native e) <;> simp [h]
    rw [hnat]
    rfl

/-- The cache-derived agreement is preserved by whole runs. -/
lemma runEvents_sync (t : VisTracker) (es : List WinEvent)
    (h : t.lastState = derivedVisible t.native) :
    (runEvents t es).1.lastState = derivedVisible (runEvents t es).1.native := by
  induction es generalizing t with
  | nil => exact h
  | cons e es ih =>
    show (runEvents (stepEvent t e).1 es).1.lastState = _
    exact ih _ (stepEvent_sync t e)

/-- A successful `find?` returns a satisfying element that is first: every
element of the enumeration before it fails the predicate. -/
lemma find?_split {α : Type} {p : α → Bool} {l : List α} {a : α}
    (h : l.find? p = some a) :
    p a = true ∧ ∃ l1 l2, l = l1 ++ a :: l2 ∧ ∀ x ∈ l1, p x = false := by
  induction l with
  | nil => simp [List.find?] at h
  | cons b l ih =>
    by_cases hb : p b = true
    · rw [List.find?_cons_of_pos _ hb] at h
      cases h
      exact ⟨hb, [], l, rfl, by simp⟩
    · rw [List.find?_cons_of_neg _ (by simpa using hb)] at h
      obtain ⟨hpa, l1, l2, hl, hfst⟩ := ih h
      refine ⟨hpa, b :: l1, l2, by rw [hl]; rfl, ?_⟩
      intro x hx
      rcases List.mem_cons.mp hx with rfl | hx
      · simpa using hb
      · exact hfst x hx

/-- `find?` misses exactly when no element satisfies the predicate. -/
lemma find?_none_of_all {α : Type} {p : α → Bool} {l : List α}
    (h : ∀ x ∈ l, p x = false) : l.find? p = none := by
  induction l with
  | nil => rfl
  | cons b l ih =>
    rw [List.find?_cons_of_neg _ (by simp [h b (List.mem_cons_self b l)])]
    exact ih fun x hx => h x (List.mem_cons_of_mem b hx)

/-- A failing element in the middle of the enumeration does not affect the
scan result. -/
lemma find?_middle_false {α : Type} {p : α → Bool} (l1 l2 : List α) {b : α}
    (hb : p b = false) :
    (l1 ++ b :: l2).find? p = (l1 ++ l2).find? p := by
  induction l1 with
  | nil =>
    show (b :: l2).find? p = l2.find? p
    rw [List.find?_cons_of_neg _ (by simp [hb])]
  | cons a l1 ih =>
    by_cases ha : p a = true
    · simp [List.find?_cons_of_pos _ ha]
    · simp only [List.cons_append]
      rw [List.find?_cons_of_neg _ (by simpa using ha),
        List.find?_cons_of_neg _ (by simpa using ha)]
      exact ih

/-! ### Theorems -/

/-- C2: `setBounds` forwards to the native resize the current bounds with
exactly the fields present in the patch overwritten, keeps omitted fields
from the current bounds, leaves the passthrough options unchanged, and an
empty patch forwards the current bounds unchanged. -/
theorem setBounds_merges_patch (B : Bounds) (P : BoundsPatch) (opts : List JSVal) :
    (setBounds B P opts).2 = opts ∧
    (setBounds B P opts).1.x = (match P.x? with | some v => v | none => B.x) ∧
    (setBounds B P opts).1.y = (match P.y? with | some v => v | none => B.y) ∧
    (setBounds B P opts).1.width =
      (match P.width? with | some v => v | none => B.width) ∧
    (setBounds B P opts).1.height =
      (match P.height? with | some v => v | none => B.height) ∧
    setBounds B BoundsPatch.empty opts = (B, opts) := by
  refine ⟨rfl, ?_, ?_, ?_, ?_, ?_⟩ <;>
    cases P <;>
    simp [setBounds, mergeBounds, BoundsPatch.empty, Option.getD] <;>
    first
      | rfl
      | (rename_i a b c d
         cases a <;> cases b <;> cases c <;> cases d <;> rfl)

/-- C4: the one-shot `load-url` subscription makes the focus call exactly
once on the first occurrence and never again: after `n` occurrences the
focus count is `min n 1`, and the handler is removed exactly when at least
one occurrence happened. When `load-url` never fires, the count is zero. -/
theorem loadUrl_focus_once (n : Nat) :
    (fireLoadUrlN initOnce n).focusCalls = min n 1 ∧
    (fireLoadUrlN initOnce n).handlerActive = decide (n = 0) := by
  have inert : ∀ (k : Nat) (m : Nat),
      fireLoadUrlN ⟨false, m⟩ k = ⟨false, m⟩ := by
    intro k
    induction k with
    | zero => intro m; rfl
    | succ k ih =>
      intro m
      simp [fireLoadUrlN, fireLoadUrl, ih]
  cases n with
  | zero => exact ⟨rfl, rfl⟩
  | succ k =>
    constructor
    · show (fireLoadUrlN (fireLoadUrl initOnce) k).focusCalls = min (k + 1) 1
      rw [show fireLoadUrl initOnce = ⟨false, 1⟩ from rfl, inert k 1]
      simp [Nat.min_def]
    · show (fireLoadUrlN (fireLoadUrl initOnce) k).handlerActive = decide (k + 1 = 0)
      rw [show fireLoadUrl initOnce = ⟨false, 1⟩ from rfl, inert k 1]
      simp

/-- C7 (counterexample): with a content surface whose every method returns
`7`, the window-level `getURL` called with the argument `1` does not forward
that argument (it forwards the empty list), and the window-level
`setBackgroundThrottling` returns `undef`, not the content surface's result
`7` — refuting the claim that every facade operation forwards all arguments
and returns the content surface's result unchanged. -/
theorem delegation_facade_cex :
    (windowOp (fun _ _ => JSVal.num 7) DelegatedOp.getURL [JSVal.num 1]).1 ≠
      [JSVal.num 1] ∧
    (windowOp (fun _ _ => JSVal.num 7)
        DelegatedOp.setBackgroundThrottling [JSVal.bool true]).2 ≠
      (fun _ _ => JSVal.num 7)
        DelegatedOp.setBackgroundThrottling [JSVal.bool true] := by
  decide

/-- C7 (amended): for every facade operation called with an argument list
matching its declared signature, the window-level call forwards exactly its
declared arguments and returns the content surface's result on the forwarded
arguments unchanged, with two exceptions: `getURL` discards its arguments
and calls the content surface's `getURL` with none, and
`setBackgroundThrottling` forwards its argument but returns `undef` instead
of the content surface's result. -/
theorem delegation_facade_amended (wc : DelegatedOp → List JSVal → JSVal)
    (op : DelegatedOp) (args : List JSVal)
    (h : declaredArgsOk op args = true) :
    (op ≠ DelegatedOp.getURL → (windowOp wc op args).1 = args) ∧
    (windowOp wc DelegatedOp.getURL args).1 = [] ∧
    (op ≠ DelegatedOp.setBackgroundThrottling →
      (windowOp wc op args).2 = wc op (windowOp wc op args).1) ∧
    (windowOp wc DelegatedOp.setBackgroundThrottling args).2 = JSVal.undef := by
  refine ⟨?_, rfl, ?_, rfl⟩
  · intro hne
    cases op with
    | getURL => exact absurd rfl hne
    | loadURL => rfl
    | loadFile => rfl
    | reload => rfl
    | send => rfl
    | openDevTools => rfl
    | inspectElement => rfl
    | capturePage => rfl
    | setBackgroundThrottling =>
      cases args with
      | nil => simp [declaredArgsOk] at h
      | cons a as =>
        cases as with
        | nil => rfl
        | cons b bs => simp [declaredArgsOk] at h
    | closeDevTools =>
      cases args with
      | nil => rfl
      | cons a as => simp [declaredArgsOk] at h
    | isDevToolsOpened =>
      cases args with
      | nil => rfl
      | cons a as => simp [declaredArgsOk] at h
    | isDevToolsFocused =>
      cases args with
      | nil => rfl
      | cons a as => simp [declaredArgsOk] at h
    | toggleDevTools =>
      cases args with
      | nil => rfl
      | cons a as => simp [declaredArgsOk] at h
    | inspectSharedWorker =>
      cases args with
      | nil => rfl
      | cons a as => simp [declaredArgsOk] at h
    | inspectServiceWorker =>
      cases args with
      | nil => rfl
      | cons a as => simp [declaredArgsOk] at h
    | showDefinitionForSelection =>
      cases args with
      | nil => rfl
      | cons a as => simp [declaredArgsOk] at h
  · intro hne
    cases op with
    | setBackgroundThrottling => exact absurd rfl hne
    | loadURL => rfl
    | getURL => rfl
    | loadFile => rfl
    | reload => rfl
    | send => rfl
    | openDevTools => rfl
    | closeDevTools => rfl
    | isDevToolsOpened => rfl
    | isDevToolsFocused => rfl
    | toggleDevTools => rfl
    | inspectElement => rfl
    | inspectSharedWorker => rfl
    | inspectServiceWorker => rfl
    | showDefinitionForSelection => rfl
    | capturePage => rfl

/-- C7 (witness): the window-level `loadURL` with one string argument
forwards that argument and returns the content surface's result. -/
theorem delegation_facade_amended_witness :
    (windowOp (fun _ _ => JSVal.num 7)
        DelegatedOp.loadURL [JSVal.str "a"]).1 = [JSVal.str "a"] ∧
    (windowOp (fun _ _ => JSVal.num 7)
        DelegatedOp.loadURL [JSVal.str "a"]).2 =
      (fun _ _ => JSVal.num 7) DelegatedOp.loadURL
        ((windowOp (fun _ _ => JSVal.num 7)
          DelegatedOp.loadURL [JSVal.str "a"]).1) := by
  constructor
  · exact (delegation_facade_amended (fun _ _ => JSVal.num 7)
      DelegatedOp.loadURL [JSVal.str "a"] (by decide)).1 (by decide)
  · exact (delegation_facade_amended (fun _ _ => JSVal.num 7)
      DelegatedOp.loadURL [JSVal.str "a"] (by decide)).2.2.1 (by decide)

/-- C8 (code bug): at a window that is not fullscreen, after assigning
`documentEdited := true` the native document-edited flag is `true`, yet
reading `documentEdited` returns `false`, because the source's getter reads
`isFullscreen()` instead of the document-edited state. -/
theorem documentEdited_getter_mismatch :
    (documentEditedSet ⟨false, false⟩ true).documentEditedFlag = true ∧
    documentEditedGet (documentEditedSet ⟨false, false⟩ true) = false := by
  decide

/-- C1 (counterexample): starting hidden, the sequence `[show, hide]` leaves
the derived value `isVisible ∧ ¬isMinimized` unchanged net-to-net, yet the
tracker emits two notifications, not zero — refuting the claim's final
consequence as stated. -/
theorem visibility_net_zero_cex :
    derivedVisible
        ((runEvents (initTracker ⟨false, false⟩)
          [WinEvent.show, WinEvent.hide]).1.native) =
      derivedVisible (⟨false, false⟩ : NativeWinState) ∧
    (runEvents (initTracker ⟨false, false⟩)
        [WinEvent.show, WinEvent.hide]).2 = ["visible", "hidden"] := by
  constructor
  · rfl
  · rfl

/-- C1 (amended): on every event the tracker recomputes the derived value;
when it differs from the cache it updates the cache and emits exactly one
notification with the matching polarity, and otherwise emits nothing. Hence
an event sequence each of whose events leaves the derived value unchanged
(step by step, not merely net-to-net) produces zero notifications, and a
single event that flips the derived value produces exactly one notification
with the correct polarity. -/
theorem visibility_transition_amended :
    (∀ (t : VisTracker) (e : WinEvent),
       stepEvent t e =
         if t.lastState = derivedVisible (applyNative t.native e) then
           (⟨applyNative t.native e, t.lastState⟩, [])
         else
           (⟨applyNative t.native e, derivedVisible (applyNative t.native e)⟩,
            [if derivedVisible (applyNative t.native e) then "visible"
             else "hidden"])) ∧
    (∀ (s : NativeWinState) (es : List WinEvent),
       preservesDerived s es = true →
       (runEvents (initTracker s) es).2 = []) ∧
    (∀ (s : NativeWinState) (e : WinEvent),
       derivedVisible (applyNative s e) ≠ derivedVisible s →
       (stepEvent (initTracker s) e).2 =
         [if derivedVisible (applyNative s e) then "visible" else "hidden"]) := by
  have hstep : ∀ (t : VisTracker) (e : WinEvent),
      stepEvent t e =
        if t.lastState = derivedVisible (applyNative t.native e) then
          (⟨applyNative t.native e, t.lastState⟩, [])
        else
          (⟨applyNative t.native e, derivedVisible (applyNative t.native e)⟩,
           [if derivedVisible (applyNative t.native e) then "visible"
            else "hidden"]) := by
    intro t e
    unfold stepEvent visibilityChanged
    by_cases h : t.lastState = derivedVisible (applyNative t.native e) <;>
      simp [h]
  refine ⟨hstep, ?_, ?_⟩
  · intro s es
    induction es generalizing s with
    | nil => intro _; rfl
    | cons e es ih =>
      intro hp
      have hp' : derivedVisible (applyNative s e) = derivedVisible s ∧
          preservesDerived (applyNative s e) es = true := by
        simpa [preservesDerived, Bool.and_eq_true, beq_iff_eq] using hp
      show ((stepEvent (initTracker s) e).2 ++
        (runEvents (stepEvent (initTracker s) e).1 es).2) = []
      have heq : stepEvent (initTracker s) e =
          (initTracker (applyNative s e), []) := by
        rw [hstep]
        simp [initTracker, hp'.1]
      rw [heq]
      simpa using ih _ hp'.2
  · intro s e hne
    rw [hstep]
    rw [if_neg fun h => hne h.symm]
    rfl

/-- C1 (witness): a derived-value-preserving sequence yields no
notifications, and a derived-value flip yields the one correct
notification. -/
theorem visibility_transition_amended_witness :
    (runEvents (initTracker ⟨true, false⟩) [WinEvent.maximize]).2 = [] ∧
    (stepEvent (initTracker ⟨false, false⟩) WinEvent.show).2 = ["visible"] := by
  constructor
  · exact visibility_transition_amended.2.1 ⟨true, false⟩ [WinEvent.maximize]
      (by decide)
  · have h := visibility_transition_amended.2.2 ⟨false, false⟩ WinEvent.show
      (by decide)
    simpa using h

/-- C3: at every quiescent point — after any processed event sequence, the
cache having been initialized at binding time — the cached boolean equals
`isVisible ∧ ¬isMinimized` of the native state reached by the events. -/
theorem visibility_cache_invariant (s : NativeWinState) (es : List WinEvent) :
    (runEvents (initTracker s) es).1.lastState =
      derivedVisible (runEvents (initTracker s) es).1.native ∧
    (runEvents (initTracker s) es).1.native = es.foldl applyNative s := by
  exact ⟨runEvents_sync _ _ rfl, runEvents_native _ _⟩

/-- C5: `getFocusedWindow` returns the first window of the enumeration
satisfying `isFocused ∨ isDevToolsFocused` — every earlier window fails the
predicate — and `null` when no window satisfies it; over the scenario
`{W1 not focused, W2 focused, W3 devtools-focused}` it returns W2. -/
theorem getFocusedWindow_first_match :
    (∀ (reg : List WindowRec) (w : WindowRec),
       getFocusedWindow reg = some w →
       focusedPred w = true ∧
       ∃ l1 l2, getAllWindows reg = l1 ++ w :: l2 ∧
         ∀ x ∈ l1, focusedPred x = false) ∧
    (∀ reg : List WindowRec,
       (∀ w ∈ getAllWindows reg, focusedPred w = false) →
       getFocusedWindow reg = none) ∧
    getFocusedWindow [exW1, exW2, exW3] = some exW2 := by
  refine ⟨?_, ?_, by decide⟩
  · intro reg w h
    exact find?_split h
  · intro reg h
    exact find?_none_of_all h

/-- C5 (witness): on the scenario registry the result W2 is focused and is
first — W1 before it fails the predicate — and a registry with no focused
window yields `null`. -/
theorem getFocusedWindow_first_match_witness :
    (focusedPred exW2 = true ∧
       ∃ l1 l2, getAllWindows [exW1, exW2, exW3] = l1 ++ exW2 :: l2 ∧
         ∀ x ∈ l1, focusedPred x = false) ∧
    getFocusedWindow [exW1] = none := by
  constructor
  · exact getFocusedWindow_first_match.1 [exW1, exW2, exW3] exW2 (by decide)
  · exact getFocusedWindow_first_match.2.1 [exW1] (by decide)

/-- C6: `fromWebContents` returns the first window of the enumeration whose
content surface equals the handle, and for a handle bound to no live window
it returns the explicit not-found value `none` — the query is a total
function and never raises. -/
theorem fromWebContents_first_match :
    (∀ (reg : List WindowRec) (wc : Nat) (w : WindowRec),
       fromWebContents reg wc = some w →
       wcMatches wc w = true ∧
       ∃ l1 l2, getAllWindows reg = l1 ++ w :: l2 ∧
         ∀ x ∈ l1, wcMatches wc x = false) ∧
    (∀ (reg : List WindowRec) (wc : Nat),
       (∀ w ∈ getAllWindows reg, wcMatches wc w = false) →
       fromWebContents reg wc = none) := by
  constructor
  · intro reg wc w h
    exact find?_split h
  · intro reg wc h
    exact find?_none_of_all h

/-- C6 (witness): the handle 12 finds W2 first on the scenario registry, and
the unbound handle 99 yields the not-found value. -/
theorem fromWebContents_first_match_witness :
    (wcMatches 12 exW2 = true ∧
       ∃ l1 l2, getAllWindows [exW1, exW2, exW3] = l1 ++ exW2 :: l2 ∧
         ∀ x ∈ l1, wcMatches 12 x = false) ∧
    fromWebContents [exW1, exW2, exW3] 99 = none := by
  constructor
  · exact fromWebContents_first_match.1 [exW1, exW2, exW3] 12 exW2 (by decide)
  · exact fromWebContents_first_match.2 [exW1, exW2, exW3] 99 (by decide)

/-- C9: a window whose content-surface reference is absent is skipped by
`fromWebContents` without error and without affecting the rest of the scan:
removing it from the registry leaves every query result unchanged, so it can
neither fail the query nor mask a later matching window. -/
theorem fromWebContents_skips_null (reg1 reg2 : List WindowRec)
    (w : WindowRec) (wc : Nat) (h : w.webContentsId = none) :
    fromWebContents (reg1 ++ w :: reg2) wc = fromWebContents (reg1 ++ reg2) wc := by
  unfold fromWebContents getAllWindows
  rw [List.filter_append, List.filter_append, List.filter_cons]
  by_cases hb : w.isBrowserWindow
  · simp only [hb, if_pos]
    exact find?_middle_false _ _ (by simp [wcMatches, h])
  · simp [hb]

/-- C9 (witness): a null-content window ahead of a matching window does not
change the query result: W2 is still found. -/
theorem fromWebContents_skips_null_witness :
    fromWebContents ([] ++ exW0 :: [exW2]) 12 = fromWebContents ([] ++ [exW2]) 12 :=
  fromWebContents_skips_null [] [exW2] exW0 12 rfl

/-- C10: the `devToolsWebContents` property is defined with no setter, as
non-configurable (hence neither assignable nor redefinable under JavaScript
property semantics), enumerable, and its getter returns exactly the bound
content surface's `devToolsWebContents` at the time of the read. -/
theorem devToolsWebContents_readonly_derived :
    devToolsWebContentsProp.set? = none ∧
    devToolsWebContentsProp.configurable = false ∧
    devToolsWebContentsProp.canAssign = false ∧
    devToolsWebContentsProp.canRedefine = false ∧
    devToolsWebContentsProp.enumerable = true ∧
    devToolsWebContentsProp.get? =
      some (fun w => w.webContents.devToolsWebContents) := by
  exact ⟨rfl, rfl, rfl, rfl, rfl, rfl⟩

end BrowserWindow
